import Mathlib

/-!
Verification of the capture-detect-render loop of the ASL-YOloV11 GUI
(`Main.py`, class `ASLDetectorGUI`).

The embedding follows the source:
- a camera frame is a row-major pixel grid; `cv2.flip(frame, 1)` is `hflip`;
- a YOLO result box carries a class id, a confidence and integer corner
  coordinates (`int(box.cls)`, `float(box.conf)`, `map(int, box.xyxy[0])`);
- the mutable controller state (`self.cap`, `self.is_running`, the results
  text widget, the displayed image) is `AppState`;
- `update_frame`, `toggle_detection`, `initialize_camera`, `release_camera`
  are translated one-for-one; external calls (`cap.read`, `model.predict`,
  the cv2 drawing primitives) are inputs of the tick, resp. abstract
  draw operations recorded on the annotated frame.
Confidences are rationals; Python's float formatting `f"{c:.2f}"` is modelled
by exact decimal rounding to two places (`format2`).
-/

namespace ASLYolo

/-- A pixel of a 3-channel frame (BGR channel values). -/
abbrev Pixel := ℕ × ℕ × ℕ

/-- A captured frame: a list of rows, each a list of pixels. -/
abbrev Frame := List (List Pixel)

/-- `cv2.flip(frame, 1)`: horizontal mirror, reversing every row
(Main.py line 202). -/
def hflip (f : Frame) : Frame := f.map List.reverse

/-- One raw YOLO detection box as consumed by `update_frame`
(Main.py lines 211-213): `int(box.cls)`, `float(box.conf)`,
`x1, y1, x2, y2 = map(int, box.xyxy[0])`. -/
structure Box where
  cls : ℕ
  conf : ℚ
  x1 : ℤ
  y1 : ℤ
  x2 : ℤ
  y2 : ℤ
deriving DecidableEq

/-- An abstract cv2 drawing primitive recorded on the annotated frame:
`cv2.rectangle(frame, p1, p2, color, width)` and
`cv2.putText(frame, s, pos, font, scale, color, width)`. -/
inductive DrawOp where
  | rect : ℤ × ℤ → ℤ × ℤ → ℕ × ℕ × ℕ → ℕ → DrawOp
  | text : String → ℤ × ℤ → ℚ → ℕ × ℕ × ℕ → ℕ → DrawOp
deriving DecidableEq

/-- A `cv2.VideoCapture` object. Constructing one never fails in Python;
`opened` is what `isOpened()` returns. -/
structure Capture where
  opened : Bool
deriving DecidableEq

/-- Errors raised by the embedded code: `raise Exception("Could not open
camera")` in `initialize_camera`, and the `KeyError` a lookup
`self.model.names[class_id]` raises when the class id is absent. -/
inductive Err where
  | cameraUnavailable : Err
  | keyError : ℕ → Err
deriving DecidableEq

/-- The mutable state of `ASLDetectorGUI` relevant to the loop:
`self.cap`, `self.is_running`, the contents of the results text widget
(one string per line), and the image held by the video label. -/
structure AppState where
  cap : Option Capture
  is_running : Bool
  results : List String
  displayed : Option (Frame × List DrawOp)
deriving DecidableEq

/-- State right after `__init__` (Main.py lines 57-58): no capture handle,
not running, empty results, nothing displayed. -/
def initState : AppState :=
  { cap := none, is_running := false, results := [], displayed := none }

/-- Python's `f"{q:.2f}"` on an exact decimal confidence in `[0,1]`: round
`100*q` to the nearest integer (`⌊100q + 1/2⌋`, computed on the reduced
numerator and denominator) and print with two digits after the point. -/
def format2 (q : ℚ) : String :=
  let cents : ℕ := (200 * q.num.toNat + q.den) / (2 * q.den)
  toString (cents / 100) ++ "." ++
    (if cents % 100 < 10 then "0" else "") ++ toString (cents % 100)

/-- The fixed display cutoff `0.60` of Main.py line 215. -/
def displayCutoff : ℚ := mkRat 60 100

/-- The results line built for a surviving detection (Main.py line 217):
`f"Letter {predicted_letter}: {confidence:.2f}"`. -/
def lineFor (label : String) (conf : ℚ) : String :=
  "Letter " ++ label ++ ": " ++ format2 conf

/-- The drawing calls for a surviving detection (Main.py lines 219-221):
green rectangle of width 2 at the box, label text at `(x1, y1 - 10)` with
font scale 0.7. -/
def drawFor (label : String) (b : Box) : List DrawOp :=
  [DrawOp.rect (b.x1, b.y1) (b.x2, b.y2) (0, 255, 0) 2,
   DrawOp.text label (b.x1, b.y1 - 10) (mkRat 7 10) (0, 255, 0) 2]

/-- The detection-processing loop of `update_frame` (Main.py lines 209-221):
for each box in order, if `confidence >= 0.60` look the class id up in
`model.names` (a `KeyError` aborts the tick), append the results line and
the drawing calls; otherwise skip the box. -/
def processBoxes (names : ℕ → Option String) :
    List Box → List String → List DrawOp → Except Err (List String × List DrawOp)
  | [], letters, ops => Except.ok (letters, ops)
  | b :: rest, letters, ops =>
    if displayCutoff ≤ b.conf then
      match names b.cls with
      | none => Except.error (Err.keyError b.cls)
      | some label =>
          processBoxes names rest (letters ++ [lineFor label b.conf])
            (ops ++ drawFor label b)
    else
      processBoxes names rest letters ops

/-- The external inputs of one tick: the outcome of `self.cap.read()`
(`none` models `ret == False`), the detection model
`self.model.predict(frame, conf=t)` returning its boxes, and the current
slider value `self.confidence_slider.get()`. -/
structure TickEnv where
  read : Option Frame
  predict : Frame → ℚ → List Box
  slider : ℚ

/-- `update_frame` (Main.py lines 196-238). Returns the new state, whether
`self.window.after(10, self.update_frame)` was reached (the next tick was
scheduled), and the error that escaped the tick, if any.
When not running: nothing happens and no tick is scheduled. When the read
fails: the state is untouched but the next tick is still scheduled. On a
successful read the frame is mirrored, the model is invoked with the slider
threshold, the boxes are processed (a `KeyError` escapes before the
results update and before the scheduling line), the results widget is
rewritten with the surviving lines and the annotated frame is displayed. -/
def update_frame (names : ℕ → Option String) (env : TickEnv) (st : AppState) :
    AppState × Bool × Option Err :=
  if st.is_running then
    match env.read with
    | none => (st, true, none)
    | some frame0 =>
      let frame := hflip frame0
      let boxes := env.predict frame env.slider
      match processBoxes names boxes [] [] with
      | Except.error e => (st, false, some e)
      | Except.ok (letters, ops) =>
          ({ st with results := letters, displayed := some (frame, ops) },
           true, none)
  else (st, false, none)

/-- `initialize_camera` (Main.py lines 252-257), with `avail` standing for
whether the default device can be opened. If `self.cap` is not `None` the
body is skipped. Otherwise `cv2.VideoCapture(0)` is assigned to `self.cap`
first; only then, if it is not opened, the exception is raised — so the
unopened handle stays in the field even on failure. -/
def initialize_camera (avail : Bool) (st : AppState) : AppState × Option Err :=
  match st.cap with
  | some _ => (st, none)
  | none =>
    let st1 := { st with cap := some ⟨avail⟩ }
    if avail then (st1, none) else (st1, some Err.cameraUnavailable)

/-- `release_camera` (Main.py lines 259-263): release and clear `self.cap`
when it is not `None`, otherwise do nothing. -/
def release_camera (st : AppState) : AppState :=
  match st.cap with
  | some _ => { st with cap := none }
  | none => st

/-- `toggle_detection` (Main.py lines 240-250). Returns the new state, the
escaped error if any, and whether `self.update_frame()` was invoked
(ticking begins). The cosmetic button-text updates are out of scope. -/
def toggle_detection (avail : Bool) (st : AppState) :
    AppState × Option Err × Bool :=
  if st.is_running then
    (release_camera { st with is_running := false }, none, false)
  else
    let st1 := { st with is_running := true }
    match initialize_camera avail st1 with
    | (st2, some e) => (st2, some e, false)
    | (st2, none) => (st2, none, true)

/-- The stop branch of `toggle_detection` (Main.py lines 243-245), the
spec's `stop(session)`: set `running=false` and release the camera. -/
def stop (st : AppState) : AppState :=
  release_camera { st with is_running := false }

/-- Number of active camera handles held by the state. -/
def handleCount (st : AppState) : ℕ := st.cap.toList.length

/-- Iterated ticks: fold `update_frame` over a list of per-tick
environments. -/
def runTicks (names : ℕ → Option String) (envs : List TickEnv)
    (st : AppState) : AppState :=
  envs.foldl (fun s e => (update_frame names e s).1) st

/-- The detections surviving the fixed display cutoff, in order. -/
def survivors (boxes : List Box) : List Box :=
  boxes.filter (fun b => decide (displayCutoff ≤ b.conf))

/-- The results line of a box under a label table (total form, for stating
theorems; coincides with the code's lookup whenever the id is present). -/
def displayLine (names : ℕ → Option String) (b : Box) : String :=
  lineFor ((names b.cls).getD "") b.conf

/-- The draw operations of a box under a label table (total form). -/
def displayOps (names : ℕ → Option String) (b : Box) : List DrawOp :=
  drawFor ((names b.cls).getD "") b

/-- A concrete label table for witnesses: class 0 is "A", class 1 is "B". -/
def wNames : ℕ → Option String :=
  fun n => if n = 0 then some "A" else if n = 1 then some "B" else none

/-- A concrete two-pixel frame for witnesses. -/
def wFrame : Frame := [[(0, 0, 0), (1, 1, 1)]]

/-- The raw detections of the spec's worked example:
`[("A", 0.91, bbox1), ("B", 0.55, bbox2)]`. -/
def wBoxes : List Box :=
  [⟨0, mkRat 91 100, 1, 2, 3, 4⟩, ⟨1, mkRat 55 100, 5, 6, 7, 8⟩]

/-- The worked example extended with a detection sitting exactly on the
0.60 display cutoff. -/
def wBoxes3 : List Box :=
  [⟨0, mkRat 91 100, 1, 2, 3, 4⟩, ⟨1, mkRat 55 100, 5, 6, 7, 8⟩,
   ⟨1, mkRat 60 100, 9, 9, 9, 9⟩]

/-- Tick environment with a successful read returning the example boxes. -/
def wEnv : TickEnv := ⟨some wFrame, fun _ _ => wBoxes, mkRat 25 100⟩

/-- Tick environment returning the cutoff-boundary example boxes. -/
def wEnv3 : TickEnv := ⟨some wFrame, fun _ _ => wBoxes3, mkRat 25 100⟩

/-- Tick environment whose camera read fails (`ret == False`). -/
def wEnvNoRead : TickEnv := ⟨none, fun _ _ => wBoxes, mkRat 25 100⟩

/-- Tick environment returning a high-confidence detection whose class id 5
is absent from `wNames`. -/
def wEnvMissing : TickEnv :=
  ⟨some wFrame, fun _ _ => [⟨5, mkRat 90 100, 0, 0, 1, 1⟩], mkRat 25 100⟩

/-- A running state holding an opened capture handle. -/
def wRun : AppState := ⟨some ⟨true⟩, true, [], none⟩

/-- States reachable from `initState` by toggles and ticks. -/
inductive Reachable : AppState → Prop
  | init : Reachable initState
  | toggle (avail : Bool) (st : AppState) :
      Reachable st → Reachable (toggle_detection avail st).1
  | tick (names : ℕ → Option String) (env : TickEnv) (st : AppState) :
      Reachable st → Reachable (update_frame names env st).1

/-- A tick never changes the capture handle or the running flag: only the
results widget and the displayed image are written. -/
lemma update_frame_preserves (names : ℕ → Option String) (env : TickEnv)
    (st : AppState) :
    (update_frame names env st).1.cap = st.cap ∧
    (update_frame names env st).1.is_running = st.is_running := by
  cases hr : st.is_running with
  | false => simp [update_frame, hr]
  | true =>
    cases hread : env.read with
    | none => simp [update_frame, hr, hread]
    | some f =>
      cases hp : processBoxes names (env.predict (hflip f) env.slider) [] [] with
      | error e => simp [update_frame, hr, hread, hp]
      | ok p =>
        cases p with
        | mk letters ops => simp [update_frame, hr, hread, hp]

/-- When every box at or above the cutoff has its class id in the label
table, `processBoxes` succeeds and appends exactly one results line and one
pair of drawing calls per surviving box, in order. -/
lemma processBoxes_ok (names : ℕ → Option String) (boxes : List Box)
    (h : ∀ b ∈ boxes, displayCutoff ≤ b.conf → (names b.cls).isSome)
    (letters : List String) (ops : List DrawOp) :
    processBoxes names boxes letters ops =
      Except.ok (letters ++ (survivors boxes).map (displayLine names),
                 ops ++ (survivors boxes).flatMap (displayOps names)) := by
  induction boxes generalizing letters ops with
  | nil => simp [processBoxes, survivors]
  | cons b rest ih =>
    by_cases hb : displayCutoff ≤ b.conf
    · have hs : (names b.cls).isSome := h b (List.mem_cons_self b rest) hb
      obtain ⟨label, hl⟩ := Option.isSome_iff_exists.mp hs
      rw [processBoxes]
      simp only [hb, if_true, hl]
      rw [ih (fun x hx hcx => h x (List.mem_cons_of_mem b hx) hcx)]
      simp [survivors, List.filter_cons, hb, displayLine, displayOps, hl,
        List.append_assoc]
    · rw [processBoxes]
      simp only [hb, if_false]
      rw [ih (fun x hx hcx => h x (List.mem_cons_of_mem b hx) hcx)]
      simp [survivors, List.filter_cons, hb]

/-- `processBoxes` fails exactly when some box at or above the cutoff has a
class id absent from the label table (the `KeyError` of the direct
`model.names[class_id]` lookup). -/
lemma processBoxes_error_iff (names : ℕ → Option String) (boxes : List Box)
    (letters : List String) (ops : List DrawOp) :
    (∃ e, processBoxes names boxes letters ops = Except.error e) ↔
      ∃ b ∈ boxes, displayCutoff ≤ b.conf ∧ names b.cls = none := by
  induction boxes generalizing letters ops with
  | nil => simp [processBoxes]
  | cons b rest ih =>
    by_cases hb : displayCutoff ≤ b.conf
    · cases hn : names b.cls with
      | none =>
        rw [processBoxes]
        simp only [hb, if_true, hn]
        constructor
        · intro _; exact ⟨b, List.mem_cons_self b rest, hb, hn⟩
        · intro _; exact ⟨Err.keyError b.cls, rfl⟩
      | some label =>
        rw [processBoxes]
        simp only [hb, if_true, hn]
        rw [ih]
        constructor
        · rintro ⟨x, hx, hcx, hnx⟩
          exact ⟨x, List.mem_cons_of_mem b hx, hcx, hnx⟩
        · rintro ⟨x, hx, hcx, hnx⟩
          rcases List.mem_cons.mp hx with rfl | hx2
          · rw [hn] at hnx; exact absurd hnx (by simp)
          · exact ⟨x, hx2, hcx, hnx⟩
    · rw [processBoxes]
      simp only [hb, if_false]
      rw [ih]
      constructor
      · rintro ⟨x, hx, hcx, hnx⟩
        exact ⟨x, List.mem_cons_of_mem b hx, hcx, hnx⟩
      · rintro ⟨x, hx, hcx, hnx⟩
        rcases List.mem_cons.mp hx with rfl | hx2
        · exact absurd hcx hb
        · exact ⟨x, hx2, hcx, hnx⟩

/-- Whatever branch a toggle takes, a result that is not running holds no
camera handle: the stop branch always clears `self.cap`, and the start
branch always leaves `is_running = true`. -/
lemma toggle_stopped_cap_none (avail : Bool) (st : AppState) :
    (toggle_detection avail st).1.is_running = false →
      (toggle_detection avail st).1.cap = none := by
  cases hr : st.is_running with
  | true =>
    cases hc : st.cap with
    | none => simp [toggle_detection, release_camera, hr, hc]
    | some c => simp [toggle_detection, release_camera, hr, hc]
  | false =>
    cases hc : st.cap with
    | none =>
      cases avail <;> simp [toggle_detection, initialize_camera, hr, hc]
    | some c => simp [toggle_detection, initialize_camera, hr, hc]

/-- Invariant of every reachable state: when the loop is not running, no
camera handle is held (`self.cap is None`). -/
lemma reachable_stopped_cap_none (st : AppState) (h : Reachable st) :
    st.is_running = false → st.cap = none := by
  induction h with
  | init => intro _; rfl
  | toggle avail st2 _ _ => exact toggle_stopped_cap_none avail st2
  | tick names env st2 _ ih =>
    intro hr
    have hp := update_frame_preserves names env st2
    rw [hp.1]
    exact ih (by rw [← hp.2]; exact hr)

/-- Claim C3: a tick whose camera read fails performs no detection, no
drawing and no results update (the state is returned unchanged, so
`is_running` is unchanged too), raises no error past the tick boundary
(error component `none`), and still schedules the next tick. -/
theorem read_failure_skips_tick (names : ℕ → Option String) (env : TickEnv)
    (st : AppState) (hrun : st.is_running = true) (hread : env.read = none) :
    update_frame names env st = (st, true, none) := by
  simp [update_frame, hrun, hread]

/-- Claim C4: every state holds at most one camera handle, and acquiring
the camera while a handle is already open is a no-op that raises nothing
and leaves the whole state unchanged. -/
theorem camera_acquire_idempotent :
    (∀ st : AppState, Reachable st → handleCount st ≤ 1) ∧
    (∀ (avail : Bool) (st : AppState) (c : Capture),
      st.cap = some c → initialize_camera avail st = (st, none)) := by
  constructor
  · intro st _
    unfold handleCount
    cases st.cap <;> simp
  · intro avail st c hc
    simp [initialize_camera, hc]

/-- Claim C5: stopping an already stopped session (`running=false`, handle
already released) is a no-op on the state, and `release_camera` on a
released handle returns the state unchanged — neither can raise, as both
are total. Stop and release are idempotent on every state. -/
theorem stop_already_stopped_noop (st : AppState)
    (hrun : st.is_running = false) (hcap : st.cap = none) :
    stop st = st ∧ release_camera st = st ∧
    (∀ s : AppState, stop (stop s) = stop s) ∧
    (∀ s : AppState, release_camera (release_camera s) = release_camera s) := by
  obtain ⟨cap, run, res, disp⟩ := st
  have hrun2 : run = false := hrun
  have hcap2 : cap = none := hcap
  subst hrun2
  subst hcap2
  refine ⟨rfl, rfl, ?_, ?_⟩
  · intro s
    obtain ⟨c, r, a, d⟩ := s
    cases c <;> rfl
  · intro s
    obtain ⟨c, r, a, d⟩ := s
    cases c <;> rfl

/-- Claim C6: the horizontal mirroring of the tick is an involution —
flipping a frame twice returns the original frame pixel-for-pixel. -/
theorem mirror_involution (f : Frame) : hflip (hflip f) = f := by
  simp [hflip, List.map_map, Function.comp_def]

/-- Claim C8: a tick that observes `running=false` reads nothing, detects
nothing, renders nothing (the state is unchanged), raises nothing, and does
not reschedule itself — whatever the camera or the model would have
returned; hence any number of further ticks leave a stopped state
untouched. `stop` always sets `running=false`, so this applies to every
tick after a stop. -/
theorem stopped_tick_never_runs (names : ℕ → Option String) (st : AppState)
    (hrun : st.is_running = false) :
    (∀ env : TickEnv, update_frame names env st = (st, false, none)) ∧
    (∀ envs : List TickEnv, runTicks names envs st = st) ∧
    (∀ s : AppState, (stop s).is_running = false) := by
  have h1 : ∀ env : TickEnv, update_frame names env st = (st, false, none) :=
    fun env => by simp [update_frame, hrun]
  refine ⟨h1, ?_, ?_⟩
  · intro envs
    induction envs with
    | nil => rfl
    | cons e rest ih =>
      unfold runTicks at ih ⊢
      rw [List.foldl_cons]
      rw [show (update_frame names e st).1 = st from by rw [h1 e]]
      exact ih
  · intro s
    cases hc : s.cap <;> simp [stop, release_camera, hc]

/-- Claim C10: when the device cannot be opened during a start, the session
is not rolled back: `running` stays `true` and `self.cap` keeps the
non-`None` unopened capture object; the next toggle therefore takes the
stop branch (ending not running with the handle cleared, for any device
availability), and any later acquire call on the failed state is a no-op
that never reattempts the open, whatever the availability. -/
theorem failed_start_not_rolled_back (st : AppState)
    (hrun : st.is_running = false) (hcap : st.cap = none) :
    (toggle_detection false st).2.1 = some Err.cameraUnavailable ∧
    (toggle_detection false st).1.is_running = true ∧
    (toggle_detection false st).1.cap = some ⟨false⟩ ∧
    (∀ avail : Bool,
      (toggle_detection avail (toggle_detection false st).1).1.is_running
        = false ∧
      (toggle_detection avail (toggle_detection false st).1).1.cap = none) ∧
    (∀ avail : Bool,
      initialize_camera avail (toggle_detection false st).1 =
        ((toggle_detection false st).1, none)) := by
  obtain ⟨cap, run, res, disp⟩ := st
  have hrun2 : run = false := hrun
  have hcap2 : cap = none := hcap
  subst hrun2
  subst hcap2
  refine ⟨rfl, rfl, rfl, ?_, ?_⟩
  · intro avail
    exact ⟨rfl, rfl⟩
  · intro avail
    rfl

/-- Claim C1: for every tick and every raw detection returned by the
detection call — at any inference threshold `t ∈ [0,1]` on the slider —
the detection is listed and drawn if and only if its confidence is at or
above the fixed display cutoff `0.60` (the boundary `0.60` itself is
kept): the results lines and the drawing calls are exactly those of the
boxes surviving the cutoff, in order. Stated under the label table
covering every surviving class id (otherwise the tick errors, see the
lookup claim). -/
theorem display_filter_keeps_iff_cutoff
    (names : ℕ → Option String) (env : TickEnv) (st : AppState) (f : Frame)
    (hrun : st.is_running = true) (hread : env.read = some f)
    (_ht : 0 ≤ env.slider ∧ env.slider ≤ 1)
    (hnames : ∀ b ∈ env.predict (hflip f) env.slider,
      displayCutoff ≤ b.conf → (names b.cls).isSome) :
    (update_frame names env st).2.2 = none ∧
    (update_frame names env st).1.results =
      (survivors (env.predict (hflip f) env.slider)).map (displayLine names) ∧
    (update_frame names env st).1.displayed =
      some (hflip f,
        (survivors (env.predict (hflip f) env.slider)).flatMap
          (displayOps names)) ∧
    ∀ b ∈ env.predict (hflip f) env.slider,
      (b ∈ survivors (env.predict (hflip f) env.slider) ↔
        displayCutoff ≤ b.conf) := by
  have hpb := processBoxes_ok names (env.predict (hflip f) env.slider) hnames [] []
  simp only [List.nil_append] at hpb
  refine ⟨?_, ?_, ?_, ?_⟩
  · simp [update_frame, hrun, hread, hpb]
  · simp [update_frame, hrun, hread, hpb]
  · simp [update_frame, hrun, hread, hpb]
  · intro b hb
    simp [survivors, List.mem_filter, hb]

/-- Claim C2: for every tick with a successful read, the results listing is
exactly one line per detection surviving the display filter, in the order
the detections were returned, each line being
`"Letter " ++ label ++ ": " ++ <confidence to 2 decimal places>`. -/
theorem results_listing_format_and_order
    (names : ℕ → Option String) (env : TickEnv) (st : AppState) (f : Frame)
    (hrun : st.is_running = true) (hread : env.read = some f)
    (hnames : ∀ b ∈ env.predict (hflip f) env.slider,
      displayCutoff ≤ b.conf → (names b.cls).isSome) :
    (update_frame names env st).1.results =
      (survivors (env.predict (hflip f) env.slider)).map
        (fun b => "Letter " ++ (names b.cls).getD "" ++ ": " ++
          format2 b.conf) := by
  have hpb := processBoxes_ok names (env.predict (hflip f) env.slider) hnames [] []
  simp only [List.nil_append] at hpb
  simp [update_frame, hrun, hread, hpb, displayLine, lineFor]

/-- Claim C9: the label lookup for a surviving detection is a direct index
into the label table with no fallback: the tick errors exactly when some
returned detection at or above the display cutoff has a class id absent
from the table (so under the precondition that every returned class id is
present, the error branch is unreachable), and on that error the state is
returned untouched — no `UnknownLabel` substitute line is ever
produced. -/
theorem label_lookup_no_fallback
    (names : ℕ → Option String) (env : TickEnv) (st : AppState) (f : Frame)
    (hrun : st.is_running = true) (hread : env.read = some f) :
    ((update_frame names env st).2.2 ≠ none ↔
      ∃ b ∈ env.predict (hflip f) env.slider,
        displayCutoff ≤ b.conf ∧ names b.cls = none) ∧
    ((update_frame names env st).2.2 ≠ none →
      (update_frame names env st).1 = st) := by
  cases hp : processBoxes names (env.predict (hflip f) env.slider) [] [] with
  | error e =>
    have hex := (processBoxes_error_iff names
      (env.predict (hflip f) env.slider) [] []).mp ⟨e, hp⟩
    have hval : update_frame names env st = (st, false, some e) := by
      simp [update_frame, hrun, hread, hp]
    rw [hval]
    exact ⟨iff_of_true (by simp) hex, fun _ => rfl⟩
  | ok p =>
    obtain ⟨letters, ops⟩ := p
    have hval : update_frame names env st =
        ({st with results := letters, displayed := some (hflip f, ops)},
         true, none) := by
      simp [update_frame, hrun, hread, hp]
    rw [hval]
    have hnex : ¬ ∃ b ∈ env.predict (hflip f) env.slider,
        displayCutoff ≤ b.conf ∧ names b.cls = none := by
      intro hx
      obtain ⟨e2, he2⟩ := (processBoxes_error_iff names
        (env.predict (hflip f) env.slider) [] []).mpr hx
      rw [hp] at he2
      exact Except.noConfusion he2
    exact ⟨iff_of_false (by simp) hnex, fun hcontra => absurd rfl hcontra⟩

/-- Claim C7: starting a (reachable) non-running session while the device
cannot be opened raises `CameraUnavailable` to the caller and does not
begin ticking — fatal to that start only; when the device can be opened
the same start succeeds, acquires an opened handle and begins ticking; and
after a failed start, a stop toggle followed by a retried start reattempts
the open and succeeds once the device has become available. -/
theorem start_unavailable_raises_recoverable (st : AppState)
    (hreach : Reachable st) (hrun : st.is_running = false) :
    (toggle_detection false st).2.1 = some Err.cameraUnavailable ∧
    (toggle_detection false st).2.2 = false ∧
    (toggle_detection true st).2.1 = none ∧
    (toggle_detection true st).2.2 = true ∧
    (toggle_detection true st).1.cap = some ⟨true⟩ ∧
    (toggle_detection true st).1.is_running = true ∧
    (toggle_detection true
      ((toggle_detection true ((toggle_detection false st).1)).1)).2.1
        = none ∧
    (toggle_detection true
      ((toggle_detection true ((toggle_detection false st).1)).1)).2.2
        = true ∧
    (toggle_detection true
      ((toggle_detection true ((toggle_detection false st).1)).1)).1.cap
        = some ⟨true⟩ := by
  have hcap : st.cap = none := reachable_stopped_cap_none st hreach hrun
  obtain ⟨cap, run, res, disp⟩ := st
  have hrun2 : run = false := hrun
  have hcap2 : cap = none := hcap
  subst hrun2
  subst hcap2
  exact ⟨rfl, rfl, rfl, rfl, rfl, rfl, rfl, rfl, rfl⟩

/-- Witness for claim C1 at a concrete tick whose detections have
confidences 0.91, 0.55 and exactly 0.60: the 0.55 one is dropped from the
listing and the overlay, the other two are kept, boundary included. -/
theorem display_filter_keeps_iff_cutoff_witness :
    (update_frame wNames wEnv3 wRun).2.2 = none ∧
    (update_frame wNames wEnv3 wRun).1.results =
      (survivors (wEnv3.predict (hflip wFrame) wEnv3.slider)).map
        (displayLine wNames) ∧
    (update_frame wNames wEnv3 wRun).1.displayed =
      some (hflip wFrame,
        (survivors (wEnv3.predict (hflip wFrame) wEnv3.slider)).flatMap
          (displayOps wNames)) ∧
    (update_frame wNames wEnv3 wRun).1.results =
      ["Letter A: 0.91", "Letter B: 0.60"] ∧
    (update_frame wNames wEnv3 wRun).1.displayed =
      some (hflip wFrame,
        [DrawOp.rect (1, 2) (3, 4) (0, 255, 0) 2,
         DrawOp.text "A" (1, 2 - 10) (mkRat 7 10) (0, 255, 0) 2,
         DrawOp.rect (9, 9) (9, 9) (0, 255, 0) 2,
         DrawOp.text "B" (9, 9 - 10) (mkRat 7 10) (0, 255, 0) 2]) := by
  have h := display_filter_keeps_iff_cutoff wNames wEnv3 wRun wFrame rfl rfl
    (by decide) (by decide)
  exact ⟨h.1, h.2.1, h.2.2.1, by decide, by decide⟩

/-- Witness for claim C2 at the spec's worked example
`[("A", 0.91, bbox1), ("B", 0.55, bbox2)]`: the listing is exactly the
single line "Letter A: 0.91". -/
theorem results_listing_format_and_order_witness :
    (update_frame wNames wEnv wRun).1.results =
      (survivors (wEnv.predict (hflip wFrame) wEnv.slider)).map
        (fun b => "Letter " ++ (wNames b.cls).getD "" ++ ": " ++
          format2 b.conf) ∧
    (update_frame wNames wEnv wRun).1.results = ["Letter A: 0.91"] :=
  ⟨results_listing_format_and_order wNames wEnv wRun wFrame rfl rfl
    (by decide),
   by decide⟩

/-- Witness for claim C3: a concrete failed read leaves the running state
untouched, raises nothing, and still schedules the next tick. -/
theorem read_failure_skips_tick_witness :
    update_frame wNames wEnvNoRead wRun = (wRun, true, none) :=
  read_failure_skips_tick wNames wEnvNoRead wRun rfl rfl

/-- Witness for claim C4: the running state (reached from the initial state
by one successful start toggle) holds one handle, and acquiring again is a
no-op. -/
theorem camera_acquire_idempotent_witness :
    handleCount wRun ≤ 1 ∧ initialize_camera true wRun = (wRun, none) :=
  ⟨camera_acquire_idempotent.1 wRun
    (Reachable.toggle true initState Reachable.init),
   camera_acquire_idempotent.2 true wRun ⟨true⟩ rfl⟩

/-- Witness for claim C5: stopping the freshly initialized (already
stopped, handle-free) state changes nothing, and stop/release are
idempotent at a concrete running state. -/
theorem stop_already_stopped_noop_witness :
    stop initState = initState ∧ release_camera initState = initState ∧
    stop (stop wRun) = stop wRun ∧
    release_camera (release_camera wRun) = release_camera wRun :=
  ⟨(stop_already_stopped_noop initState rfl rfl).1,
   (stop_already_stopped_noop initState rfl rfl).2.1,
   (stop_already_stopped_noop initState rfl rfl).2.2.1 wRun,
   (stop_already_stopped_noop initState rfl rfl).2.2.2 wRun⟩

/-- Witness for claim C7 at the initial state: start with the device
unavailable raises `CameraUnavailable` without ticking; after a stop
toggle, the retried start reopens the device and succeeds. -/
theorem start_unavailable_raises_recoverable_witness :
    (toggle_detection false initState).2.1 = some Err.cameraUnavailable ∧
    (toggle_detection false initState).2.2 = false ∧
    (toggle_detection true initState).2.1 = none ∧
    (toggle_detection true initState).2.2 = true ∧
    (toggle_detection true initState).1.cap = some ⟨true⟩ ∧
    (toggle_detection true initState).1.is_running = true ∧
    (toggle_detection true
      ((toggle_detection true ((toggle_detection false initState).1)).1)).2.1
        = none ∧
    (toggle_detection true
      ((toggle_detection true ((toggle_detection false initState).1)).1)).2.2
        = true ∧
    (toggle_detection true
      ((toggle_detection true ((toggle_detection false initState).1)).1)).1.cap
        = some ⟨true⟩ :=
  start_unavailable_raises_recoverable initState Reachable.init rfl

/-- Witness for claim C8: concrete ticks on a stopped state do nothing and
do not reschedule, and a concrete stop ends not running. -/
theorem stopped_tick_never_runs_witness :
    update_frame wNames wEnv initState = (initState, false, none) ∧
    runTicks wNames [wEnv, wEnvNoRead] initState = initState ∧
    (stop wRun).is_running = false :=
  ⟨(stopped_tick_never_runs wNames initState rfl).1 wEnv,
   (stopped_tick_never_runs wNames initState rfl).2.1 [wEnv, wEnvNoRead],
   (stopped_tick_never_runs wNames initState rfl).2.2 wRun⟩

/-- Witness for claim C9: a tick whose only detection (confidence 0.90) has
class id 5, absent from the table, errors with the `KeyError` and leaves
the state — in particular its empty results listing — untouched: no
substitute label line appears. -/
theorem label_lookup_no_fallback_witness :
    (update_frame wNames wEnvMissing wRun).2.2 = some (Err.keyError 5) ∧
    (update_frame wNames wEnvMissing wRun).1 = wRun ∧
    (update_frame wNames wEnvMissing wRun).1.results = [] :=
  ⟨by decide,
   (label_lookup_no_fallback wNames wEnvMissing wRun wFrame rfl rfl).2
     (by decide),
   by decide⟩

/-- Witness for claim C10 at the initial state: the failed start keeps
`running=true` and the unopened handle; the next toggle stops; a later
acquire is a no-op even with the device available. -/
theorem failed_start_not_rolled_back_witness :
    (toggle_detection false initState).2.1 = some Err.cameraUnavailable ∧
    (toggle_detection false initState).1.is_running = true ∧
    (toggle_detection false initState).1.cap = some ⟨false⟩ ∧
    (toggle_detection true (toggle_detection false initState).1).1.is_running
      = false ∧
    (toggle_detection true (toggle_detection false initState).1).1.cap
      = none ∧
    initialize_camera true (toggle_detection false initState).1 =
      ((toggle_detection false initState).1, none) :=
  ⟨(failed_start_not_rolled_back initState rfl rfl).1,
   (failed_start_not_rolled_back initState rfl rfl).2.1,
   (failed_start_not_rolled_back initState rfl rfl).2.2.1,
   ((failed_start_not_rolled_back initState rfl rfl).2.2.2.1 true).1,
   ((failed_start_not_rolled_back initState rfl rfl).2.2.2.1 true).2,
   (failed_start_not_rolled_back initState rfl rfl).2.2.2.2 true⟩

end ASLYolo
